import Mathlib

/-!
Shallow embedding of the SkillBridge backend's authentication/authorization
core (src/auth/service.py, src/users/service.py, src/profiles/service.py,
src/profiles/controller.py) and proofs about it.

Modelling conventions:
* UUIDs are modelled as `Nat` (every UUID string corresponds to a number).
* Plaintext passwords are modelled as their byte sequences, `List Nat`,
  because the bcrypt backend used by `passlib` operates on the UTF-8 bytes
  of the password and silently truncates them to the first 72 bytes.
* The bcrypt digest is idealized as a collision-free function of the
  (salt, truncated password) pair: the stored hash records its salt and the
  digest of the truncated password.  The 72-byte truncation performed by
  the real library is kept, since it is observable behaviour of
  `bcrypt_context.hash` / `bcrypt_context.verify`.
* JWTs (the `jwt.encode` / `jwt.decode` calls of PyJWT) are modelled as
  wire values that are either malformed or a (payload, signature) pair,
  with an idealized unforgeable MAC; `jwt.decode` checks the signature and
  then the `exp` claim, raising distinct `PyJWTError`s exactly as the
  library does (expired means `exp <= now`).
* Timestamps are integers (seconds); `timedelta(minutes=m)` is `m * 60`.
* The database session is a pair of lists (users, profiles); SQLAlchemy's
  `.filter(...).first()` is `List.find?`, `db.add` + `db.commit` appends,
  mutation of a fetched row followed by `db.commit` replaces the first
  matching row, `db.delete` erases it.
* Each exception class of src/exceptions.py (plus pydantic's
  ValidationError and the bare ValueError of profile creation) is one
  constructor of `AppError`; FastAPI route results are `ApiResponse`
  records holding the fields passed to `build_response`.
-/

/-- A plaintext password, as the byte sequence `passlib` hashes. -/
abbrev Password := List Nat

/-- bcrypt silently truncates the secret to its first 72 bytes
(passlib's bcrypt handler keeps this behaviour, `truncate_error` off). -/
def bcryptTruncate (p : Password) : Password :=
  p.take 72

/-- A stored bcrypt hash string: it embeds the random salt and the digest.
The digest is idealized as injective in the truncated password. -/
structure BcryptHash where
  salt : Nat
  digest : Password
deriving DecidableEq, Repr

/-- `get_password_hash` (src/auth/service.py line 40): `bcrypt_context.hash`.
The salt is drawn fresh by the library; it is passed explicitly here. -/
def get_password_hash (password : Password) (salt : Nat) : BcryptHash :=
  { salt := salt, digest := bcryptTruncate password }

/-- `verify_password` (src/auth/service.py line 36): `bcrypt_context.verify`
re-derives the digest of the (truncated) candidate under the stored salt and
compares. -/
def verify_password (plain_password : Password) (hashed_password : BcryptHash) : Bool :=
  bcryptTruncate plain_password == hashed_password.digest

/-- The decoded JWT payload: `{"sub": email, "id": str(user_id), "exp": ...}`.
`id` is `Option` because `payload.get("id")` may be absent. -/
structure JwtPayload where
  sub : String
  id : Option Nat
  exp : Int
deriving DecidableEq, Repr

/-- An idealized unforgeable MAC value: signing key plus signed payload. -/
structure JwtSig where
  key : Nat
  signedPayload : JwtPayload
deriving DecidableEq, Repr

/-- HMAC signing as performed inside `jwt.encode`. -/
def jwtSign (secret : Nat) (p : JwtPayload) : JwtSig :=
  { key := secret, signedPayload := p }

/-- A token string on the wire: either not a well-formed JWT at all, or a
payload together with a signature. -/
inductive TokenWire where
  | malformed : Nat → TokenWire
  | signed : JwtPayload → JwtSig → TokenWire
deriving DecidableEq, Repr

/-- The exceptions `jwt.decode` can raise, all subclasses of `PyJWTError`. -/
inductive PyJWTError where
  | decodeError
  | invalidSignatureError
  | expiredSignatureError
deriving DecidableEq, Repr

/-- `jwt.decode(token, SECRET_KEY, algorithms=[ALGORITHM])`: rejects
malformed input, then checks the signature, then the `exp` claim (PyJWT
raises `ExpiredSignatureError` when `exp <= now`, leeway 0). -/
def jwtDecode (token : TokenWire) (secret : Nat) (now : Int) : Except PyJWTError JwtPayload :=
  match token with
  | TokenWire.malformed _ => Except.error PyJWTError.decodeError
  | TokenWire.signed payload sig =>
      if sig = jwtSign secret payload then
        if payload.exp ≤ now then Except.error PyJWTError.expiredSignatureError
        else Except.ok payload
      else Except.error PyJWTError.invalidSignatureError

/-- The application-level error taxonomy: one constructor per exception
class of src/exceptions.py that the embedded operations raise, plus
pydantic's ValidationError and the ValueError of profile creation. -/
inductive AppError where
  | userNotFound
  | passwordMismatch
  | invalidPassword
  | duplicateEmail
  | duplicatePhone
  | authenticationError
  | invalidCredential
  | valueError
  | validationError
deriving DecidableEq, Repr

/-- `TokenData` (src/auth/model.py): the payload's `id` field, possibly
absent. -/
structure TokenData where
  user_id : Option Nat
deriving DecidableEq, Repr

/-- `TokenData.get_uuid` (src/auth/model.py line 40). -/
def TokenData.get_uuid (t : TokenData) : Option Nat :=
  t.user_id

/-- `verify_token` (src/auth/service.py lines 57-64): decode, extract the
`id` claim; any `PyJWTError` collapses to `AuthenticationError`. -/
def verify_token (token : TokenWire) (secret : Nat) (now : Int) : Except AppError TokenData :=
  match jwtDecode token secret now with
  | Except.ok payload => Except.ok { user_id := payload.id }
  | Except.error _ => Except.error AppError.authenticationError

/-- `create_access_token` (src/auth/service.py lines 52-54):
`exp = now + expires_delta`, signed with the process secret. -/
def create_access_token (email : String) (user_id : Nat) (secret : Nat)
    (now : Int) (expires_delta : Int) : TokenWire :=
  TokenWire.signed
    { sub := email, id := some user_id, exp := now + expires_delta }
    (jwtSign secret { sub := email, id := some user_id, exp := now + expires_delta })

/-- A row of the `users` table (src/entities/user.py). -/
structure UserRow where
  id : Nat
  email : String
  first_name : String
  last_name : String
  password_hash : BcryptHash
  phone_number : String
deriving DecidableEq, Repr

/-- `EducationLevel` (src/entities/profile.py). -/
inductive EducationLevel where
  | primary
  | secondary
  | university
deriving DecidableEq, Repr

/-- `TeachingMethod` (src/entities/profile.py). -/
inductive TeachingMethod where
  | online
  | inPerson
  | hybrid
deriving DecidableEq, Repr

/-- `Gender` (src/entities/profile.py). -/
inductive Gender where
  | male
  | female
deriving DecidableEq, Repr

/-- A row of the `profiles` table (src/entities/profile.py);
`user_id` is a NOT NULL foreign key into `users`. -/
structure ProfileRow where
  id : Nat
  user_id : Nat
  profile_picture : Option String
  bio : String
  degrees : Option (List String)
  years_of_experience : Option String
  subjects : Option (List String)
  levels : Option (List EducationLevel)
  teaching_method : Option TeachingMethod
  location : Option String
  gender : Gender
  hourly_rate : Option String
  languages : Option (List String)
  currency : String
deriving DecidableEq, Repr

/-- The request-scoped database session state: the two tables the
authentication core touches. -/
structure DB where
  users : List UserRow
  profiles : List ProfileRow
deriving DecidableEq, Repr

/-- `db.query(User).filter(User.email == email).first()`. -/
def findUserByEmail (db : DB) (email : String) : Option UserRow :=
  db.users.find? (fun u => u.email == email)

/-- `db.query(User).filter(User.phone_number == phone).first()`. -/
def findUserByPhone (db : DB) (phone : String) : Option UserRow :=
  db.users.find? (fun u => u.phone_number == phone)

/-- `db.query(User).filter(User.id == user_id).first()`. -/
def findUserById (db : DB) (user_id : Nat) : Option UserRow :=
  db.users.find? (fun u => u.id == user_id)

/-- Mutating the object returned by `.first()` and committing replaces the
first matching row in the table. -/
def replaceFirst (rows : List α) (cond : α → Bool) (new : α) : List α :=
  match rows with
  | [] => []
  | r :: rest => if cond r then new :: rest else r :: replaceFirst rest cond new

/-- `ProfileCreate` (src/profiles/model.py), post-validation: `bio`,
`gender`, `user_id` are required, `currency` defaults to "TND", the rest
default to null. -/
structure ProfileCreate where
  bio : String
  profile_picture : Option String
  degrees : Option (List String)
  years_of_experience : Option String
  subjects : Option (List String)
  levels : Option (List EducationLevel)
  teaching_method : Option TeachingMethod
  location : Option String
  gender : Gender
  hourly_rate : Option String
  currency : String
  user_id : Nat
deriving DecidableEq, Repr

/-- pydantic construction `ProfileCreate(user_id=..., bio=..., gender=...)`
as performed with keyword arguments: the required fields `bio` (with its
`min_length=1`, `max_length=1000` constraint) and `gender` must be present
or a ValidationError is raised; omitted optional fields take their
defaults.  Registration (src/auth/service.py line 89) supplies only
`user_id`. -/
def profileCreateInit (user_id : Nat) (bio : Option String) (gender : Option Gender) :
    Except AppError ProfileCreate :=
  match bio, gender with
  | some b, some g =>
      if 1 ≤ b.length ∧ b.length ≤ 1000 then
        Except.ok
          { bio := b, profile_picture := none, degrees := none,
            years_of_experience := none, subjects := none, levels := none,
            teaching_method := none, location := none, gender := g,
            hourly_rate := none, currency := "TND", user_id := user_id }
      else Except.error AppError.validationError
  | _, _ => Except.error AppError.validationError

/-- `ProfileUpdate` (src/profiles/model.py) after
`model_dump(exclude_unset=True)`: `some v` is a field present in the
request body, `none` a field the client omitted. -/
structure ProfileUpdate where
  bio : Option String
  profile_picture : Option String
  degrees : Option (List String)
  years_of_experience : Option String
  subjects : Option (List String)
  levels : Option (List EducationLevel)
  teaching_method : Option TeachingMethod
  location : Option String
  gender : Option Gender
  hourly_rate : Option String
  currency : Option String
deriving DecidableEq, Repr

/-- For a nullable column: a provided value overwrites, an omitted field
keeps the stored value. -/
def setOpt (new : Option α) (old : Option α) : Option α :=
  match new with
  | some v => some v
  | none => old

/-- The `setattr` loop of `update_profile` (src/profiles/service.py lines
204-205) applied to one fetched row. -/
def applyProfileUpdate (row : ProfileRow) (u : ProfileUpdate) : ProfileRow :=
  { row with
    bio := u.bio.getD row.bio,
    profile_picture := setOpt u.profile_picture row.profile_picture,
    degrees := setOpt u.degrees row.degrees,
    years_of_experience := setOpt u.years_of_experience row.years_of_experience,
    subjects := setOpt u.subjects row.subjects,
    levels := setOpt u.levels row.levels,
    teaching_method := setOpt u.teaching_method row.teaching_method,
    location := setOpt u.location row.location,
    gender := u.gender.getD row.gender,
    hourly_rate := setOpt u.hourly_rate row.hourly_rate,
    currency := u.currency.getD row.currency }

namespace ProfilesService

/-- `get_profile_by_id` (src/profiles/service.py lines 47-67). -/
def get_profile_by_id (db : DB) (profile_id : Nat) : Option ProfileRow :=
  db.profiles.find? (fun p => p.id == profile_id)

/-- `get_profile_by_user_id` (src/profiles/service.py lines 70-90). -/
def get_profile_by_user_id (db : DB) (user_id : Nat) : Option ProfileRow :=
  db.profiles.find? (fun p => p.user_id == user_id)

/-- `create_profile` (src/profiles/service.py lines 16-44): raises
ValueError if the user already has a profile, otherwise inserts and
commits a new row.  The fresh row id (`uuid.uuid4` column default) is
passed explicitly. -/
def create_profile (db : DB) (profile_data : ProfileCreate) (freshId : Nat) :
    Except AppError ProfileRow × DB :=
  match get_profile_by_user_id db profile_data.user_id with
  | some _ => (Except.error AppError.valueError, db)
  | none =>
      let row : ProfileRow :=
        { id := freshId, user_id := profile_data.user_id,
          profile_picture := profile_data.profile_picture,
          bio := profile_data.bio, degrees := profile_data.degrees,
          years_of_experience := profile_data.years_of_experience,
          subjects := profile_data.subjects, levels := profile_data.levels,
          teaching_method := profile_data.teaching_method,
          location := profile_data.location, gender := profile_data.gender,
          hourly_rate := profile_data.hourly_rate, languages := none,
          currency := profile_data.currency }
      (Except.ok row, { db with profiles := db.profiles ++ [row] })

/-- `update_profile` (src/profiles/service.py lines 183-213): fetch by id,
return `None` if absent, otherwise set the provided fields and commit. -/
def update_profile (db : DB) (profile_id : Nat) (profile_update : ProfileUpdate) :
    Option ProfileRow × DB :=
  match get_profile_by_id db profile_id with
  | none => (none, db)
  | some db_profile =>
      let row := applyProfileUpdate db_profile profile_update
      (some row,
       { db with profiles := replaceFirst db.profiles (fun p => p.id == profile_id) row })

/-- `delete_profile` (src/profiles/service.py lines 216-239): fetch by id,
return `False` if absent, otherwise delete the fetched row and commit. -/
def delete_profile (db : DB) (profile_id : Nat) : Bool × DB :=
  match get_profile_by_id db profile_id with
  | none => (false, db)
  | some _ =>
      (true, { db with profiles := db.profiles.eraseP (fun p => p.id == profile_id) })

end ProfilesService

/-- `RegisterUserRequest` (src/auth/model.py). -/
structure RegisterUserRequest where
  email : String
  first_name : String
  last_name : String
  password : Password
  phone_number : String
deriving DecidableEq, Repr

/-- `LoginRequest` (src/auth/model.py). -/
structure LoginRequest where
  username : String
  password : Password
deriving DecidableEq, Repr

/-- `Token` response model (src/auth/model.py). -/
structure TokenResponse where
  access_token : TokenWire
  token_type : String
deriving DecidableEq, Repr

namespace AuthService

/-- `authenticate_user` (src/auth/service.py lines 44-49): look up by
email; `False` (here `none`) both when the email is unknown and when the
password does not verify. -/
def authenticate_user (email : String) (password : Password) (db : DB) : Option UserRow :=
  match findUserByEmail db email with
  | none => none
  | some user =>
      if verify_password password user.password_hash then some user else none

/-- `register_user` (src/auth/service.py lines 67-98): email-duplicate
check, then phone-duplicate check, then insert-and-commit the user, then
`ProfileCreate(user_id=new_id)` (which supplies neither `bio` nor
`gender`) and `create_profile`.  Any exception after the user commit is
logged and re-raised; the committed user row is not rolled back.  The
fresh user id (`uuid4()`), the bcrypt salt, and the fresh profile row id
are passed explicitly. -/
def register_user (db : DB) (req : RegisterUserRequest) (newId : Nat) (salt : Nat)
    (profileId : Nat) : Except AppError Unit × DB :=
  match findUserByEmail db req.email with
  | some _ => (Except.error AppError.duplicateEmail, db)
  | none =>
  match findUserByPhone db req.phone_number with
  | some _ => (Except.error AppError.duplicatePhone, db)
  | none =>
      let create_user_model : UserRow :=
        { id := newId, email := req.email, first_name := req.first_name,
          last_name := req.last_name,
          password_hash := get_password_hash req.password salt,
          phone_number := req.phone_number }
      let db1 : DB := { db with users := db.users ++ [create_user_model] }
      match profileCreateInit newId none none with
      | Except.error e => (Except.error e, db1)
      | Except.ok profile_data =>
          match ProfilesService.create_profile db1 profile_data profileId with
          | (Except.error e, db2) => (Except.error e, db2)
          | (Except.ok _, db2) => (Except.ok (), db2)

/-- `login_for_access_token` (src/auth/service.py lines 108-113): raises
`InvalidCrendentialError` when authentication returns a falsy value,
otherwise issues a bearer token with the configured TTL
(`timedelta(minutes=m)`, here `m * 60` seconds). -/
def login_for_access_token (form_data : LoginRequest) (db : DB) (secret : Nat)
    (now : Int) (expireMinutes : Int) : Except AppError TokenResponse :=
  match authenticate_user form_data.username form_data.password db with
  | none => Except.error AppError.invalidCredential
  | some user =>
      Except.ok
        { access_token := create_access_token user.email user.id secret now (expireMinutes * 60),
          token_type := "bearer" }

end AuthService

/-- `PasswordChange` (src/users/model.py). -/
structure PasswordChange where
  current_password : Password
  new_password : Password
  new_password_confirm : Password
deriving DecidableEq, Repr

namespace UsersService

/-- `get_user_by_id` (src/users/service.py lines 17-23): raises
`UserNotFoundError` when absent. -/
def get_user_by_id (db : DB) (user_id : Nat) : Except AppError UserRow :=
  match findUserById db user_id with
  | none => Except.error AppError.userNotFound
  | some user => Except.ok user

/-- `change_password` (src/users/service.py lines 26-46): fetch the user,
check the current password (`InvalidPasswordError`), check the
confirmation (`PasswordMismatchError`), then store the hash of the new
password and commit.  The fresh bcrypt salt is passed explicitly. -/
def change_password (db : DB) (user_id : Nat) (password_change : PasswordChange)
    (salt : Nat) : Except AppError Unit × DB :=
  match get_user_by_id db user_id with
  | Except.error e => (Except.error e, db)
  | Except.ok user =>
      if !(verify_password password_change.current_password user.password_hash) then
        (Except.error AppError.invalidPassword, db)
      else if password_change.new_password != password_change.new_password_confirm then
        (Except.error AppError.passwordMismatch, db)
      else
        let user' : UserRow :=
          { user with password_hash := get_password_hash password_change.new_password salt }
        (Except.ok (),
         { db with users := replaceFirst db.users (fun u => u.id == user_id) user' })

end UsersService

/-- The arguments a route hands to `build_response` (src/utils.py), with
the serialized profile kept as a row. -/
structure ApiResponse where
  success : Bool
  message : String
  status_code : Nat
  data : Option ProfileRow
deriving DecidableEq, Repr

namespace ProfilesController

/-- POST /profiles/ (src/profiles/controller.py lines 19-33): the body's
`user_id` is overwritten with the authenticated caller's id before the
service call; a ValueError becomes a 400.  When the token carries no id,
`get_uuid()` is `None`, and the NOT NULL constraint on
`profiles.user_id` rejects the insert at commit, surfacing as an
unhandled 500 with nothing persisted. -/
def create_profile (db : DB) (profile_data : ProfileCreate) (current_user : TokenData)
    (freshId : Nat) : ApiResponse × DB :=
  match TokenData.get_uuid current_user with
  | none =>
      ({ success := false, message := "Internal Server Error", status_code := 500,
         data := none }, db)
  | some uid =>
      match ProfilesService.create_profile db { profile_data with user_id := uid } freshId with
      | (Except.error _, db') =>
          ({ success := false, message := "User already has a profile", status_code := 400,
             data := none }, db')
      | (Except.ok profile, db') =>
          ({ success := true, message := "Profile created successfully", status_code := 201,
             data := some profile }, db')

/-- PUT /profiles/{profile_id} (src/profiles/controller.py lines 165-190):
404 when the profile does not exist, 403 when it is not owned by the
caller, otherwise the update is applied. -/
def update_profile (db : DB) (profile_id : Nat) (profile_update : ProfileUpdate)
    (current_user : TokenData) : ApiResponse × DB :=
  match ProfilesService.get_profile_by_id db profile_id with
  | none =>
      ({ success := false, message := "Profile not found", status_code := 404,
         data := none }, db)
  | some profile =>
      if some profile.user_id != TokenData.get_uuid current_user then
        ({ success := false, message := "Not authorized to update this profile",
           status_code := 403, data := none }, db)
      else
        match ProfilesService.update_profile db profile_id profile_update with
        | (none, db') =>
            ({ success := false, message := "Profile not found", status_code := 404,
               data := none }, db')
        | (some updated_profile, db') =>
            ({ success := true, message := "Profile updated successfully",
               status_code := 200, data := some updated_profile }, db')

/-- DELETE /profiles/{profile_id} (src/profiles/controller.py lines
207-221): 404 when the profile does not exist, 403 when it is not owned
by the caller, otherwise the delete is applied. -/
def delete_profile (db : DB) (profile_id : Nat) (current_user : TokenData) :
    ApiResponse × DB :=
  match ProfilesService.get_profile_by_id db profile_id with
  | none =>
      ({ success := false, message := "Profile not found", status_code := 404,
         data := none }, db)
  | some profile =>
      if some profile.user_id != TokenData.get_uuid current_user then
        ({ success := false, message := "Not authorized to delete this profile",
           status_code := 403, data := none }, db)
      else
        match ProfilesService.delete_profile db profile_id with
        | (false, db') =>
            ({ success := false, message := "Profile not found", status_code := 404,
               data := none }, db')
        | (true, db') =>
            ({ success := true, message := "Profile deleted successfully",
               status_code := 200, data := none }, db')

end ProfilesController

/-- The one-profile-per-user invariant: no two rows of the `profiles`
table share a `user_id`. -/
def uniqueProfileOwners (db : DB) : Prop :=
  db.profiles.Pairwise (fun p q => p.user_id ≠ q.user_id)

/-- A 73-byte password: 72 bytes of 'a' followed by 'x'. -/
def pwLongA : Password := List.replicate 72 97 ++ [120]

/-- A 73-byte password: 72 bytes of 'a' followed by 'y'. -/
def pwLongB : Password := List.replicate 72 97 ++ [121]

/-- A concrete profile row used to exercise the ownership guard. -/
def profC1 : ProfileRow :=
  { id := 1, user_id := 5, profile_picture := none, bio := "b", degrees := none,
    years_of_experience := none, subjects := none, levels := none,
    teaching_method := none, location := none, gender := Gender.male,
    hourly_rate := none, languages := none, currency := "TND" }

/-- A database holding exactly `profC1`. -/
def dbC1 : DB := { users := [], profiles := [profC1] }

/-- An update request with every field omitted. -/
def updC1 : ProfileUpdate :=
  { bio := none, profile_picture := none, degrees := none,
    years_of_experience := none, subjects := none, levels := none,
    teaching_method := none, location := none, gender := none,
    hourly_rate := none, currency := none }

/-- A token resolving to `profC1`'s owner. -/
def tokOwnerC1 : TokenData := { user_id := some 5 }

/-- A token resolving to a different user. -/
def tokOtherC1 : TokenData := { user_id := some 6 }

/-- A concrete registered user for the login experiments. -/
def userC3 : UserRow :=
  { id := 1, email := "a", first_name := "f", last_name := "l",
    password_hash := get_password_hash [1] 0, phone_number := "111" }

/-- A database holding exactly `userC3`. -/
def dbC3 : DB := { users := [userC3], profiles := [] }

/-- A registration request reusing `userC3`'s email. -/
def reqC4email : RegisterUserRequest :=
  { email := "a", first_name := "g", last_name := "m", password := [2],
    phone_number := "222" }

/-- A registration request with a fresh email but `userC3`'s phone. -/
def reqC4phone : RegisterUserRequest :=
  { email := "b", first_name := "g", last_name := "m", password := [2],
    phone_number := "111" }

/-- An empty database. -/
def dbC5 : DB := { users := [], profiles := [] }

/-- A registration request hitting neither duplicate check. -/
def reqC5 : RegisterUserRequest :=
  { email := "a", first_name := "f", last_name := "l", password := [1, 2],
    phone_number := "111" }

/-- A concrete profile row owned by user 5. -/
def profC8 : ProfileRow :=
  { id := 4, user_id := 5, profile_picture := none, bio := "b", degrees := none,
    years_of_experience := none, subjects := none, levels := none,
    teaching_method := none, location := none, gender := Gender.female,
    hourly_rate := none, languages := none, currency := "TND" }

/-- A database in which user 5 already has a profile. -/
def dbC8 : DB := { users := [], profiles := [profC8] }

/-- Creation data for a second profile of user 5. -/
def pdC8 : ProfileCreate :=
  { bio := "c", profile_picture := none, degrees := none,
    years_of_experience := none, subjects := none, levels := none,
    teaching_method := none, location := none, gender := Gender.male,
    hourly_rate := none, currency := "TND", user_id := 5 }

/-- A user whose stored hash is of the password `[7]`. -/
def uC9 : UserRow :=
  { id := 3, email := "a", first_name := "f", last_name := "l",
    password_hash := get_password_hash [7] 0, phone_number := "111" }

/-- A database holding exactly `uC9`. -/
def dbC9 : DB := { users := [uC9], profiles := [] }

/-- A change request with the wrong current password. -/
def pcC9a : PasswordChange :=
  { current_password := [8], new_password := [9], new_password_confirm := [9] }

/-- A change request with mismatching confirmation. -/
def pcC9b : PasswordChange :=
  { current_password := [7], new_password := [9], new_password_confirm := [10] }

/-- A well-formed change request. -/
def pcC9c : PasswordChange :=
  { current_password := [7], new_password := [9], new_password_confirm := [9] }

/-- Profile-creation body claiming to belong to user 99. -/
def pdC10 : ProfileCreate :=
  { bio := "b", profile_picture := none, degrees := none,
    years_of_experience := none, subjects := none, levels := none,
    teaching_method := none, location := none, gender := Gender.male,
    hourly_rate := none, currency := "TND", user_id := 99 }

/-- A caller token resolving to user 5. -/
def cuC10 : TokenData := { user_id := some 5 }

/-- The row the create endpoint persists for `pdC10` under `cuC10`. -/
def rowC10 : ProfileRow :=
  { id := 7, user_id := 5, profile_picture := none, bio := "b", degrees := none,
    years_of_experience := none, subjects := none, levels := none,
    teaching_method := none, location := none, gender := Gender.male,
    hourly_rate := none, languages := none, currency := "TND" }

/-- C2: for every input token string, token verification either succeeds
returning the embedded user id or fails with the single error
`AuthenticationError`; every failure cause of `jwt.decode` — bad
signature, malformed payload, or expired token — produces that same
`AuthenticationError`, and no other outcome is possible. -/
theorem C2_verify_token_single_error (secret : Nat) (now : Int) (t : TokenWire) :
    (∀ e : PyJWTError, jwtDecode t secret now = Except.error e →
      verify_token t secret now = Except.error AppError.authenticationError) ∧
    (∀ p : JwtPayload, jwtDecode t secret now = Except.ok p →
      verify_token t secret now = Except.ok { user_id := p.id }) ∧
    ((∃ d : TokenData, verify_token t secret now = Except.ok d) ∨
      verify_token t secret now = Except.error AppError.authenticationError) := by
  refine ⟨?_, ?_, ?_⟩
  · intro e he
    simp [verify_token, he]
  · intro p hp
    simp [verify_token, hp]
  · cases h : jwtDecode t secret now with
    | ok p => exact Or.inl ⟨{ user_id := p.id }, by simp [verify_token, h]⟩
    | error e => exact Or.inr (by simp [verify_token, h])

/-- Witness for C2 at a concrete malformed token. -/
theorem C2_witness :
    verify_token (TokenWire.malformed 0) 0 0 = Except.error AppError.authenticationError :=
  (C2_verify_token_single_error 0 0 (TokenWire.malformed 0)).1 PyJWTError.decodeError rfl

/-- C6: a token issued at `t0` with time-to-live `T` verifies successfully
at any time strictly before `t0 + T` and fails with `AuthenticationError`
at any time at or after `t0 + T`. -/
theorem C6_token_ttl (secret : Nat) (email : String) (uid : Nat) (t0 T now : Int) :
    (now < t0 + T →
      verify_token (create_access_token email uid secret t0 T) secret now =
        Except.ok { user_id := some uid }) ∧
    (t0 + T ≤ now →
      verify_token (create_access_token email uid secret t0 T) secret now =
        Except.error AppError.authenticationError) := by
  constructor
  · intro h
    have hn : ¬ (t0 + T ≤ now) := by omega
    simp [verify_token, create_access_token, jwtDecode, jwtSign, hn]
  · intro h
    simp [verify_token, create_access_token, jwtDecode, jwtSign, h]

/-- Witness for C6: a token with TTL 10 issued at 0 verifies at 0 and is
rejected at 10. -/
theorem C6_witness :
    verify_token (create_access_token ("a") 1 7 0 10) 7 0 =
      Except.ok { user_id := some 1 } ∧
    verify_token (create_access_token ("a") 1 7 0 10) 7 10 =
      Except.error AppError.authenticationError :=
  ⟨(C6_token_ttl 7 ("a") 1 0 10 0).1 (by decide),
   (C6_token_ttl 7 ("a") 1 0 10 10).2 (by decide)⟩

/-- C7 (failing input): bcrypt as used by `passlib` truncates passwords to
72 bytes, so the two distinct 73-byte passwords `pwLongA` and `pwLongB`
verify against each other's hashes, contradicting the claim that
`verify(P1, hash(P2))` is false for every `P1 ≠ P2`. -/
theorem C7_bcrypt_truncation_collision :
    pwLongA ≠ pwLongB ∧
    verify_password pwLongA (get_password_hash pwLongB 0) = true := by
  constructor
  · decide
  · decide

/-- C3: login with a nonexistent email and login with an existing email
but a non-verifying password produce the identical observable result:
the same `InvalidCredentials` failure, with no distinguishing signal. -/
theorem C3_login_uniform_failure (db : DB) (secret : Nat) (now : Int) (mins : Int) :
    (∀ email pw, findUserByEmail db email = none →
      AuthService.login_for_access_token { username := email, password := pw } db secret now mins =
        Except.error AppError.invalidCredential) ∧
    (∀ email pw u, findUserByEmail db email = some u →
      verify_password pw u.password_hash = false →
      AuthService.login_for_access_token { username := email, password := pw } db secret now mins =
        Except.error AppError.invalidCredential) := by
  constructor
  · intro email pw h
    simp [AuthService.login_for_access_token, AuthService.authenticate_user, h]
  · intro email pw u h hv
    simp [AuthService.login_for_access_token, AuthService.authenticate_user, h, hv]

/-- Witness for C3: unknown email and wrong password against `dbC3` both
yield the same error value. -/
theorem C3_witness :
    AuthService.login_for_access_token { username := ("z"), password := [1] } dbC3 0 0 30 =
      Except.error AppError.invalidCredential ∧
    AuthService.login_for_access_token { username := ("a"), password := [2] } dbC3 0 0 30 =
      Except.error AppError.invalidCredential :=
  ⟨(C3_login_uniform_failure dbC3 0 0 30).1 ("z") [1] (by decide),
   (C3_login_uniform_failure dbC3 0 0 30).2 ("a") [2] userC3 (by decide) (by decide)⟩

/-- C4: registration checks the email first, then the phone number, before
any write: a taken email fails with `DuplicateEmail` and a taken phone
(with a fresh email) fails with `DuplicatePhone`, in both cases leaving
the store unchanged. -/
theorem C4_register_duplicate_checks (db : DB) (req : RegisterUserRequest)
    (newId salt profileId : Nat) :
    (∀ u, findUserByEmail db req.email = some u →
      AuthService.register_user db req newId salt profileId =
        (Except.error AppError.duplicateEmail, db)) ∧
    (findUserByEmail db req.email = none →
      ∀ u, findUserByPhone db req.phone_number = some u →
      AuthService.register_user db req newId salt profileId =
        (Except.error AppError.duplicatePhone, db)) := by
  constructor
  · intro u h
    simp [AuthService.register_user, h]
  · intro h u h2
    simp [AuthService.register_user, h, h2]

/-- Witness for C4: against `dbC3`, reusing the stored email (even with
its phone also taken) yields `DuplicateEmail`, and a fresh email with the
stored phone yields `DuplicatePhone`; the store is unchanged. -/
theorem C4_witness :
    AuthService.register_user dbC3 reqC4email 9 0 10 =
      (Except.error AppError.duplicateEmail, dbC3) ∧
    AuthService.register_user dbC3 reqC4phone 9 0 10 =
      (Except.error AppError.duplicatePhone, dbC3) :=
  ⟨(C4_register_duplicate_checks dbC3 reqC4email 9 0 10).1 userC3 (by decide),
   (C4_register_duplicate_checks dbC3 reqC4phone 9 0 10).2 (by decide) userC3 (by decide)⟩

/-- C5 (failing input): a registration against the empty store passes both
duplicate checks, commits the user row, and then the dependent-profile
step fails — `ProfileCreate(user_id=...)` supplies neither of the
required fields `bio` and `gender`, raising a ValidationError — and the
committed user row is not rolled back: the final state holds user 1 and
no profile. -/
theorem C5_register_not_atomic :
    (AuthService.register_user dbC5 reqC5 1 0 2).1 =
      Except.error AppError.validationError ∧
    ((AuthService.register_user dbC5 reqC5 1 0 2).2.users.map UserRow.id) = [1] ∧
    (AuthService.register_user dbC5 reqC5 1 0 2).2.profiles = [] := by
  refine ⟨rfl, by decide, by decide⟩

/-- C8: `create_profile` fails with the ValueError (without writing)
whenever a profile for the given `user_id` already exists, and therefore
preserves the one-profile-per-user invariant. -/
theorem C8_one_profile_per_user (db : DB) (pd : ProfileCreate) (freshId : Nat) :
    (∀ p, ProfilesService.get_profile_by_user_id db pd.user_id = some p →
      ProfilesService.create_profile db pd freshId =
        (Except.error AppError.valueError, db)) ∧
    (uniqueProfileOwners db →
      uniqueProfileOwners (ProfilesService.create_profile db pd freshId).2) := by
  constructor
  · intro p h
    simp [ProfilesService.create_profile, h]
  · intro hu
    cases h : ProfilesService.get_profile_by_user_id db pd.user_id with
    | some p =>
        simpa [ProfilesService.create_profile, h] using hu
    | none =>
        have h' := h
        simp only [ProfilesService.get_profile_by_user_id] at h'
        have hall : ∀ a ∈ db.profiles, a.user_id ≠ pd.user_id := by
          intro a ha
          have hfa := List.find?_eq_none.mp h' a ha
          simpa using hfa
        unfold uniqueProfileOwners
        simp only [ProfilesService.create_profile, h]
        rw [List.pairwise_append]
        refine ⟨hu, List.pairwise_singleton _ _, ?_⟩
        intro a ha b hb
        have hb' := List.mem_singleton.mp hb
        subst hb'
        exact hall a ha

/-- Witness for C8: a second profile for user 5 is refused and the
invariant holds after a create against `dbC8`. -/
theorem C8_witness :
    ProfilesService.create_profile dbC8 pdC8 9 =
      (Except.error AppError.valueError, dbC8) ∧
    uniqueProfileOwners (ProfilesService.create_profile dbC5 pdC8 9).2 :=
  ⟨(C8_one_profile_per_user dbC8 pdC8 9).1 profC8 (by decide),
   (C8_one_profile_per_user dbC5 pdC8 9).2 (by simp [uniqueProfileOwners, dbC5])⟩

/-- C9: for a password change by an existing user, a non-verifying
current password fails with `InvalidCurrentPassword` and a mismatching
confirmation fails with `PasswordMismatch`, each leaving the store
unchanged; only when both checks pass is the stored hash replaced by the
hash of the new password. -/
theorem C9_change_password_flow (db : DB) (uid : Nat) (pc : PasswordChange)
    (salt : Nat) (u : UserRow) :
    (findUserById db uid = some u →
      verify_password pc.current_password u.password_hash = false →
      UsersService.change_password db uid pc salt =
        (Except.error AppError.invalidPassword, db)) ∧
    (findUserById db uid = some u →
      verify_password pc.current_password u.password_hash = true →
      pc.new_password ≠ pc.new_password_confirm →
      UsersService.change_password db uid pc salt =
        (Except.error AppError.passwordMismatch, db)) ∧
    (findUserById db uid = some u →
      verify_password pc.current_password u.password_hash = true →
      pc.new_password = pc.new_password_confirm →
      UsersService.change_password db uid pc salt =
        (Except.ok (),
         { db with users := (replaceFirst db.users (fun w => w.id == uid)
             ({ u with password_hash := get_password_hash pc.new_password salt })) })) := by
  refine ⟨?_, ?_, ?_⟩
  · intro h hv
    simp [UsersService.change_password, UsersService.get_user_by_id, h, hv]
  · intro h hv hne
    simp [UsersService.change_password, UsersService.get_user_by_id, h, hv, hne]
  · intro h hv he
    simp [UsersService.change_password, UsersService.get_user_by_id, h, hv, he]

/-- Witness for C9: the three branches at concrete requests against
`dbC9`. -/
theorem C9_witness :
    UsersService.change_password dbC9 3 pcC9a 1 =
      (Except.error AppError.invalidPassword, dbC9) ∧
    UsersService.change_password dbC9 3 pcC9b 1 =
      (Except.error AppError.passwordMismatch, dbC9) ∧
    UsersService.change_password dbC9 3 pcC9c 1 =
      (Except.ok (),
       { dbC9 with users := (replaceFirst dbC9.users (fun w => w.id == 3)
           ({ uC9 with password_hash := get_password_hash pcC9c.new_password 1 })) }) :=
  ⟨(C9_change_password_flow dbC9 3 pcC9a 1 uC9).1 (by decide) (by decide),
   (C9_change_password_flow dbC9 3 pcC9b 1 uC9).2.1 (by decide) (by decide) (by decide),
   (C9_change_password_flow dbC9 3 pcC9c 1 uC9).2.2 (by decide) (by decide) rfl⟩

/-- C1: for the by-id profile update and delete endpoints, a nonexistent
profile id yields `NotFound` (404) for every caller with the store
unchanged; an existing profile owned by a different user yields
`Forbidden` (403) with the store unchanged; and only when the profile
exists and is owned by the caller is the mutation applied. -/
theorem C1_ownership_guard (db : DB) (profile_id : Nat) (upd : ProfileUpdate)
    (cu : TokenData) :
    (ProfilesService.get_profile_by_id db profile_id = none →
      ProfilesController.update_profile db profile_id upd cu =
        ({ success := false, message := "Profile not found", status_code := 404,
           data := none }, db) ∧
      ProfilesController.delete_profile db profile_id cu =
        ({ success := false, message := "Profile not found", status_code := 404,
           data := none }, db)) ∧
    (∀ p, ProfilesService.get_profile_by_id db profile_id = some p →
      some p.user_id ≠ TokenData.get_uuid cu →
      ProfilesController.update_profile db profile_id upd cu =
        ({ success := false, message := "Not authorized to update this profile",
           status_code := 403, data := none }, db) ∧
      ProfilesController.delete_profile db profile_id cu =
        ({ success := false, message := "Not authorized to delete this profile",
           status_code := 403, data := none }, db)) ∧
    (∀ p, ProfilesService.get_profile_by_id db profile_id = some p →
      some p.user_id = TokenData.get_uuid cu →
      ProfilesController.update_profile db profile_id upd cu =
        ({ success := true, message := "Profile updated successfully",
           status_code := 200, data := some (applyProfileUpdate p upd) },
         { db with profiles := (replaceFirst db.profiles (fun q => q.id == profile_id)
             (applyProfileUpdate p upd)) }) ∧
      ProfilesController.delete_profile db profile_id cu =
        ({ success := true, message := "Profile deleted successfully",
           status_code := 200, data := none },
         { db with profiles := db.profiles.eraseP (fun q => q.id == profile_id) })) := by
  refine ⟨?_, ?_, ?_⟩
  · intro h
    constructor
    · simp [ProfilesController.update_profile, h]
    · simp [ProfilesController.delete_profile, h]
  · intro p h hne
    have hb : (some p.user_id != TokenData.get_uuid cu) = true := by
      simp [hne]
    constructor
    · simp [ProfilesController.update_profile, h, hb]
    · simp [ProfilesController.delete_profile, h, hb]
  · intro p h he
    have hb : (some p.user_id != TokenData.get_uuid cu) = false := by
      simp [he]
    constructor
    · simp [ProfilesController.update_profile, ProfilesService.update_profile, h, hb]
    · simp [ProfilesController.delete_profile, ProfilesService.delete_profile, h, hb]

/-- Witness for C1: against `dbC1`, a missing id gives 404 to a non-owner,
a non-owner gets 403 on an existing profile, and the owner's delete is
applied. -/
theorem C1_witness :
    ProfilesController.update_profile dbC1 2 updC1 tokOtherC1 =
      ({ success := false, message := "Profile not found", status_code := 404,
         data := none }, dbC1) ∧
    ProfilesController.update_profile dbC1 1 updC1 tokOtherC1 =
      ({ success := false, message := "Not authorized to update this profile",
         status_code := 403, data := none }, dbC1) ∧
    ProfilesController.delete_profile dbC1 1 tokOwnerC1 =
      ({ success := true, message := "Profile deleted successfully",
         status_code := 200, data := none },
       { dbC1 with profiles := dbC1.profiles.eraseP (fun q => q.id == 1) }) :=
  ⟨((C1_ownership_guard dbC1 2 updC1 tokOtherC1).1 (by decide)).1,
   ((C1_ownership_guard dbC1 1 updC1 tokOtherC1).2.1 profC1 (by decide) (by decide)).1,
   ((C1_ownership_guard dbC1 1 updC1 tokOwnerC1).2.2 profC1 (by decide) (by decide)).2⟩

/-- C10: the by-body `user_id` of a profile-creation request is ignored by
the create endpoint — the outcome is identical for any body `user_id` —
and every profile it returns or persists is owned by the caller's
resolved user id. -/
theorem C10_create_profile_owner_override (db : DB) (pd : ProfileCreate)
    (cu : TokenData) (freshId : Nat) :
    (∀ x, ProfilesController.create_profile db { pd with user_id := x } cu freshId =
      ProfilesController.create_profile db pd cu freshId) ∧
    (∀ row, (ProfilesController.create_profile db pd cu freshId).1.data = some row →
      TokenData.get_uuid cu = some row.user_id) ∧
    (∀ p, p ∈ (ProfilesController.create_profile db pd cu freshId).2.profiles →
      p ∈ db.profiles ∨ TokenData.get_uuid cu = some p.user_id) := by
  obtain ⟨o⟩ := cu
  refine ⟨?_, ?_, ?_⟩
  · intro x
    cases o with
    | none => rfl
    | some uid => rfl
  · intro row hrow
    cases o with
    | none =>
        simp [ProfilesController.create_profile, TokenData.get_uuid] at hrow
    | some uid =>
        cases hq : ProfilesService.get_profile_by_user_id db uid with
        | some p0 =>
            simp [ProfilesController.create_profile, TokenData.get_uuid,
              ProfilesService.create_profile, hq] at hrow
        | none =>
            simp [ProfilesController.create_profile, TokenData.get_uuid,
              ProfilesService.create_profile, hq] at hrow
            subst hrow
            rfl
  · intro p hp
    cases o with
    | none =>
        exact Or.inl (by
          simpa [ProfilesController.create_profile, TokenData.get_uuid] using hp)
    | some uid =>
        cases hq : ProfilesService.get_profile_by_user_id db uid with
        | some p0 =>
            exact Or.inl (by
              simpa [ProfilesController.create_profile, TokenData.get_uuid,
                ProfilesService.create_profile, hq] using hp)
        | none =>
            have hp' := hp
            simp [ProfilesController.create_profile, TokenData.get_uuid,
              ProfilesService.create_profile, hq, List.mem_append] at hp'
            cases hp' with
            | inl hmem => exact Or.inl hmem
            | inr heq => exact Or.inr (by simp [TokenData.get_uuid, heq])

/-- Witness for C10: against the empty store, a body claiming user 99 and
one claiming user 42 create the same profile, owned by the caller user 5. -/
theorem C10_witness :
    ProfilesController.create_profile dbC5 { pdC10 with user_id := 42 } cuC10 7 =
      ProfilesController.create_profile dbC5 pdC10 cuC10 7 ∧
    TokenData.get_uuid cuC10 = some rowC10.user_id :=
  ⟨(C10_create_profile_owner_override dbC5 pdC10 cuC10 7).1 42,
   (C10_create_profile_owner_override dbC5 pdC10 cuC10 7).2.1 rowC10 (by decide)⟩
